import Mathlib

namespace GuideHelper

/-- EMU value of `docx.shared.Pt`: one point is 12700 EMU. -/
def Pt (n : Rat) : Rat := n * 12700

/-- EMU value of `docx.shared.Cm`: one centimetre is 360000 EMU. -/
def Cm (n : Rat) : Rat := n * 360000

/-- The simple uppercase mapping of Python `str.upper` on one character,
restricted to the alphabets occurring in this program's text: ASCII Latin
letters (via `Char.toUpper`, which maps exactly a–z) and Cyrillic — the
contiguous block а–я (U+0430–U+044F, shifted down by 32 to А–Я like in
Python's case table) plus ё (U+0451 → Ё U+0401).  Characters without a
case mapping are returned unchanged.  Python's full Unicode mapping also
covers further scripts and a few length-changing special cases (e.g.
ß → SS); none of those characters occur in this program's strings. -/
def pyCharUpper (c : Char) : Char :=
  if 'а' ≤ c ∧ c ≤ 'я' then Char.ofNat (c.toNat - 32)
  else if c = 'ё' then 'Ё'
  else c.toUpper

/-- Models Python `str.upper` as used by `add_heading` for level-1
headings: the character-wise simple case mapping `pyCharUpper` over the
string. -/
def pyUpper (s : String) : String := String.mk (s.data.map pyCharUpper)

/-- Whether a character is a lower-case letter of the modeled alphabets
(ASCII a–z, Cyrillic а–я, or ё) — the characters `pyCharUpper` maps away. -/
def isModeledLowerChar (c : Char) : Bool :=
  ('a' ≤ c && c ≤ 'z') || ('а' ≤ c && c ≤ 'я') || c == 'ё'

/-- Whether any lower-case letter of the modeled alphabets remains in a
string ("fully upper-cased" means this is `false`). -/
def hasModeledLower (s : String) : Bool := s.data.any isModeledLowerChar

/-- Paragraph alignment values used by the script
(`WD_ALIGN_PARAGRAPH.CENTER` / `WD_ALIGN_PARAGRAPH.JUSTIFY`). -/
inductive Alignment where
  | center
  | justify
deriving DecidableEq, Repr

/-- Low-level XML child nodes of a run that the script creates:
`w:t` text nodes (from `add_run`), and the `w:fldChar` / `w:instrText`
nodes built by `add_page_number` via `create_element` / `create_attribute`.
`fldChar` carries its `w:fldCharType` attribute, `instrText` its
`xml:space` attribute and its text. -/
inductive XmlNode where
  | text (s : String)
  | fldChar (fldCharType : String)
  | instrText (space : String) (s : String)
deriving DecidableEq, Repr

/-- A text run: its ordered XML child nodes plus the run-level properties
the script assigns.  `none` means the property was never assigned (the
`python-docx` default, inherited from the style). -/
structure Run where
  nodes : List XmlNode
  bold : Option Bool
  fontName : Option String
  fontSize : Option Rat
  eastAsia : Option String
deriving DecidableEq, Repr

/-- The paragraph-format fields written by `set_paragraph_format`
(`space_before`, `space_after`, `line_spacing`, `first_line_indent`).
Spacing distances and the indent are EMU values; `line_spacing` is the
bare multiple (`1.5`). -/
structure ParagraphFormat where
  space_before : Option Rat
  space_after : Option Rat
  line_spacing : Option Rat
  first_line_indent : Option Rat
deriving DecidableEq, Repr

/-- A paragraph: alignment, ordered runs, paragraph format. -/
structure Paragraph where
  alignment : Option Alignment
  runs : List Run
  paragraph_format : ParagraphFormat
deriving DecidableEq, Repr

/-- A table cell; `python-docx` models a cell as a list of paragraphs and a
fresh cell holds one empty paragraph. -/
structure Cell where
  paragraphs : List Paragraph
deriving DecidableEq, Repr

/-- A table: its style name (the script sets `'Table Grid'`) and the grid
of rows of cells. -/
structure Table where
  style : Option String
  rows : List (List Cell)
deriving DecidableEq, Repr

/-- One body element of the document: a paragraph, a table, or the page
break appended by `doc.add_page_break()`. -/
inductive BodyElt where
  | par (p : Paragraph)
  | table (t : Table)
  | pageBreak
deriving DecidableEq, Repr

/-- Section geometry, written by `setup_document`.  The `python-docx`
template defaults are abstracted as `none` because `setup_document`
overwrites every field before anything else happens. -/
structure Section where
  page_height : Option Rat
  page_width : Option Rat
  left_margin : Option Rat
  right_margin : Option Rat
  top_margin : Option Rat
  bottom_margin : Option Rat
  header_distance : Option Rat
  footer_distance : Option Rat
deriving DecidableEq, Repr

/-- The document: its sections and its ordered, append-only body. -/
structure Doc where
  sections : List Section
  body : List BodyElt
deriving DecidableEq, Repr

/-- A paragraph as returned by `doc.add_paragraph()`: no alignment, no
runs, no explicit paragraph format. -/
def blankParagraph : Paragraph :=
  { alignment := none
    runs := []
    paragraph_format :=
      { space_before := none
        space_after := none
        line_spacing := none
        first_line_indent := none } }

/-- A fresh `Document()`: one template section (its geometry abstracted as
unset, see `Section`), empty body. -/
def newDocument : Doc :=
  { sections :=
      [{ page_height := none, page_width := none, left_margin := none
         right_margin := none, top_margin := none, bottom_margin := none
         header_distance := none, footer_distance := none }]
    body := [] }

/-- The run produced by the script's recurring four lines
`run = p.add_run(s); run.font.name = 'Times New Roman';
run.font.size = Pt(14); run._element.rPr.rFonts.set(qn('w:eastAsia'),
'Times New Roman')` (bold left unassigned). -/
def tnrRun (s : String) : Run :=
  { nodes := [XmlNode.text s]
    bold := none
    fontName := some "Times New Roman"
    fontSize := some (Pt 14)
    eastAsia := some "Times New Roman" }

/-- `set_paragraph_format(paragraph, space_before, space_after,
line_spacing, first_line_indent)` from the script.  The Python defaults
(`0`, `0`, `1.5`, `1.25`) are applied explicitly at each call site of the
embedding.  Python's `if first_line_indent:` is truthiness: both `None`
and `0` fall to the `Cm(0)` branch. -/
def set_paragraph_format (p : Paragraph) (space_before space_after : Rat)
    (line_spacing : Rat) (first_line_indent : Option Rat) : Paragraph :=
  { p with paragraph_format :=
      { space_before := some (Pt space_before)
        space_after := some (Pt space_after)
        line_spacing := some line_spacing
        first_line_indent :=
          match first_line_indent with
          | some v => if v ≠ 0 then some (Cm v) else some (Cm 0)
          | none => some (Cm 0) } }

/-- `add_page_number(run)` from the script: builds `w:fldChar[begin]`,
`w:instrText[xml:space=preserve]="PAGE"`, `w:fldChar[end]` via
`create_element` / `create_attribute` and appends the three nodes, one
`run._r.append` at a time, to the run's children. -/
def add_page_number (run : Run) : Run :=
  let fldChar1 := XmlNode.fldChar "begin"
  let instrText := XmlNode.instrText "preserve" "PAGE"
  let fldChar2 := XmlNode.fldChar "end"
  { run with nodes := ((run.nodes ++ [fldChar1]) ++ [instrText]) ++ [fldChar2] }

/-- `add_heading(doc, text, level)` from the script: level 1 gives a
centered bold upper-cased paragraph with `space_after=12` and no first-line
indent; any other level gives a justified bold paragraph, case unchanged,
`space_before=12`, `space_after=6`, first-line indent `1.25` cm. -/
def add_heading (doc : Doc) (text : String) (level : Int) : Doc :=
  if level = 1 then
    let p := { blankParagraph with alignment := some Alignment.center }
    let run := { tnrRun (pyUpper text) with bold := some true }
    let p := { p with runs := p.runs ++ [run] }
    let p := set_paragraph_format p 0 12 1.5 none
    { doc with body := doc.body ++ [BodyElt.par p] }
  else
    let p := { blankParagraph with alignment := some Alignment.justify }
    let run := { tnrRun text with bold := some true }
    let p := { p with runs := p.runs ++ [run] }
    let p := set_paragraph_format p 12 6 1.5 (some 1.25)
    { doc with body := doc.body ++ [BodyElt.par p] }

/-- `add_paragraph(doc, text, bold, indent)` from the script (Python
defaults `bold=False`, `indent=True` are applied at call sites).  Note
`run.bold = bold` assigns the flag explicitly, so `bold` is never `none`
here. -/
def add_paragraph (doc : Doc) (text : String) (bold : Bool) (indent : Bool) : Doc :=
  let p := { blankParagraph with alignment := some Alignment.justify }
  let run := { tnrRun text with bold := some bold }
  let p := { p with runs := p.runs ++ [run] }
  let p := set_paragraph_format p 0 0 1.5 (some (if indent then 1.25 else 0))
  { doc with body := doc.body ++ [BodyElt.par p] }

/-- `add_list_item(doc, text, number)` from the script (Python default
`number=None`).  The dispatch is Python's `if number:`, which is falsy for
both `None` and `0`. -/
def add_list_item (doc : Doc) (text : String) (number : Option Int) : Doc :=
  let p := { blankParagraph with alignment := some Alignment.justify }
  let runText :=
    match number with
    | some n => if n ≠ 0 then toString n ++ ") " ++ text else "– " ++ text
    | none => "– " ++ text
  let p := { p with runs := p.runs ++ [tnrRun runText] }
  let p := set_paragraph_format p 0 0 1.5 (some 1.25)
  { doc with body := doc.body ++ [BodyElt.par p] }

/-- `add_page_break(doc)` from the script (`doc.add_page_break()`). -/
def add_page_break (doc : Doc) : Doc :=
  { doc with body := doc.body ++ [BodyElt.pageBreak] }

/-- `setup_document(doc)` from the script: writes the GOST geometry into
every section (the document has exactly one). -/
def setup_document (doc : Doc) : Doc :=
  { doc with sections := doc.sections.map fun _ =>
      { page_height := some (Cm 29.7)
        page_width := some (Cm 21)
        left_margin := some (Cm 3)
        right_margin := some (Cm 1.5)
        top_margin := some (Cm 2)
        bottom_margin := some (Cm 2)
        header_distance := some (Cm 1.25)
        footer_distance := some (Cm 1.25) } }

/-- Last element of a list (observation helper for the append-only body). -/
def lastOf {α : Type} : List α → Option α
  | [] => none
  | [a] => some a
  | _ :: b :: rest => lastOf (b :: rest)

/-- The last body element of a document, when it is a paragraph. -/
def lastPar (d : Doc) : Option Paragraph :=
  match lastOf d.body with
  | some (BodyElt.par p) => some p
  | _ => none

/-- Concatenation of the text carried by a run's `w:t` nodes. -/
def nodesText : List XmlNode → String
  | [] => ""
  | XmlNode.text s :: rest => s ++ nodesText rest
  | _ :: rest => nodesText rest

/-- The plain text of a run. -/
def runText (r : Run) : String := nodesText r.nodes

/-- The entries of the hard-coded table of contents in `create_toc`. -/
def toc_items : List (String × String) :=
  [("ВВЕДЕНИЕ", "3"),
   ("1 АНАЛИЗ ПРЕДМЕТНОЙ ОБЛАСТИ", "5"),
   ("1.1 Описание бизнес-процесса", "5"),
   ("1.2 Выявление потоков данных", "7"),
   ("1.3 Концептуальная модель данных", "8"),
   ("2 ПРОЕКТИРОВАНИЕ АРХИТЕКТУРЫ", "10"),
   ("2.1 Выбор шаблона интеграции", "10"),
   ("2.2 Логическая архитектура решения", "11"),
   ("2.3 Выбор технологий и инструментов", "13"),
   ("3 РАЗРАБОТКА ИНТЕГРАЦИОННОГО РЕШЕНИЯ", "15"),
   ("3.1 Схема обмена данными", "15"),
   ("3.2 Контракты сообщений", "16"),
   ("3.3 Обработка ошибок", "18"),
   ("4 РЕАЛИЗАЦИЯ И ТЕСТИРОВАНИЕ", "19"),
   ("4.1 Реализация прототипа", "19"),
   ("4.2 Тестирование", "21"),
   ("ЗАКЛЮЧЕНИЕ", "23"),
   ("СПИСОК ИСПОЛЬЗОВАННЫХ ИСТОЧНИКОВ", "24")]

/-- Python `item.startswith(("1.", "2.", "3.", "4."))` from `create_toc`:
true when the item starts with any of the four prefixes. -/
def startsNum (item : String) : Bool :=
  item.startsWith "1." || item.startsWith "2." ||
  item.startsWith "3." || item.startsWith "4."

/-- The paragraph built by one iteration of the `create_toc` loop: a
default paragraph (no alignment assigned), a title run (with a leading tab
for numeric subsection items) carrying the full font pattern, a second run
holding a tab and the literal page number — this run gets `font.name` and
`font.size` but, unlike every other run in the script, no `w:eastAsia`
font — and finally `set_paragraph_format(p, first_line_indent=0)`. -/
def tocEntryPar (item page : String) : Paragraph :=
  let p := blankParagraph
  let titleText := if startsNum item then "\t" ++ item else item
  let p := { p with runs := p.runs ++ [tnrRun titleText] }
  let tab_run : Run :=
    { nodes := [XmlNode.text ("\t" ++ page)]
      bold := none
      fontName := some "Times New Roman"
      fontSize := some (Pt 14)
      eastAsia := none }
  let p := { p with runs := p.runs ++ [tab_run] }
  set_paragraph_format p 0 0 1.5 (some 0)

/-- `create_toc(doc)` from the script: the СОДЕРЖАНИЕ heading followed by
one `tocEntryPar` per entry of `toc_items`, in order. -/
def create_toc (doc : Doc) : Doc :=
  let d := add_heading doc "СОДЕРЖАНИЕ" 1
  { d with body := d.body ++ toc_items.map fun ip => BodyElt.par (tocEntryPar ip.1 ip.2) }

/-- A fresh table cell as `doc.add_table` creates it: one empty paragraph. -/
def newCell : Cell := { paragraphs := [blankParagraph] }

/-- `doc.add_table(rows, cols)`: a grid of `rows × cols` fresh cells, no
style assigned yet. -/
def add_table (rows cols : Nat) : Table :=
  { style := none, rows := List.replicate rows (List.replicate cols newCell) }

/-- The run created by the `python-docx` `cell.text = v` setter: a bare
run holding the text, with no font or boldness assignments. -/
def cellRun (v : String) : Run :=
  { nodes := [XmlNode.text v]
    bold := none
    fontName := none
    fontSize := none
    eastAsia := none }

/-- The value of a cell after `cell.text = v`: assignment to a cell's
`text` replaces the whole cell content with one paragraph holding one run
carrying the text. -/
def setCellText (v : String) : Cell :=
  { paragraphs := [{ blankParagraph with runs := [cellRun v] }] }

/-- `for paragraph in cell.paragraphs: for run in paragraph.runs:
run.bold = True` — the header-loop body of `create_section4`. -/
def boldCellRuns (c : Cell) : Cell :=
  { paragraphs := c.paragraphs.map fun p =>
      { p with runs := p.runs.map fun r => { r with bold := some true } } }

/-- Net effect of one header-loop iteration of `create_section4` on the
header cell: `cell.text = header`, then bold every run of the cell. -/
def headerMk (v : String) : Cell := boldCellRuns (setCellText v)

/-- Net effect of one data-loop iteration of `create_section4` on a data
cell: `cell.text = cell_data`. -/
def dataMk (v : String) : Cell := setCellText v

/-- All runs of a cell, in order. -/
def cellRuns (c : Cell) : List Run := (c.paragraphs.map Paragraph.runs).flatten

/-- One row-filling loop of `create_section4`
(`for i, v in enumerate(values, start=c): table.rows[ridx].cells[i] ← mk v`):
each iteration indexes `table.rows[ridx].cells[i]` and overwrites the cell
with `mk v`; an out-of-range index raises `IndexError` exactly where
Python would. -/
def fillCellsAt (mk : String → Cell) :
    List (List Cell) → Nat → Nat → List String → Except String (List (List Cell))
  | rows, _, _, [] => Except.ok rows
  | rows, ridx, c, v :: vs =>
    match rows.get? ridx with
    | some row =>
      if c < row.length then
        fillCellsAt mk (rows.set ridx (row.set c (mk v))) ridx (c + 1) vs
      else Except.error "IndexError"
    | none => Except.error "IndexError"

/-- The data loop of `create_section4`
(`for row_idx, row_data in enumerate(data, idx): for col_idx, cell_data in
enumerate(row_data): table.rows[row_idx].cells[col_idx].text = cell_data`). -/
def fillDataFrom :
    List (List Cell) → Nat → List (List String) → Except String (List (List Cell))
  | rows, _, [] => Except.ok rows
  | rows, idx, rd :: rest =>
    match fillCellsAt dataMk rows idx 0 rd with
    | Except.ok rows2 => fillDataFrom rows2 (idx + 1) rest
    | Except.error e => Except.error e

/-- The header row of the benchmark table in `create_section4`. -/
def section4Headers : List String := ["Реализация", "ns/op", "B/op", "allocs/op"]

/-- The data rows of the benchmark table in `create_section4`. -/
def section4Data : List (List String) :=
  [["MapCache", "220", "32", "1"],
   ["FilesystemCache", "8000", "512", "5"],
   ["SQLiteCache", "78000", "1024", "12"]]

/-- The benchmark table exactly as `create_section4` builds it:
`doc.add_table(rows=4, cols=4)`, `table.style = 'Table Grid'`, the header
loop over `section4Headers` (each header cell's runs made bold), then the
data loop over `section4Data` starting at row index 1. -/
def section4Table : Except String Table :=
  let t := add_table 4 4
  let t := { t with style := some "Table Grid" }
  match fillCellsAt headerMk t.rows 0 0 section4Headers with
  | Except.error e => Except.error e
  | Except.ok rows1 =>
    match fillDataFrom rows1 1 section4Data with
    | Except.error e => Except.error e
    | Except.ok rows2 => Except.ok { t with rows := rows2 }

/-- The specification's `appendTable(headerRow, dataRows)`: the table fill
of `create_section4` with the grid dimensions generalized from the source's
literals (`rows=4` is `1 + len(dataRows)`, `cols=4` is `len(headerRow)`
there), no style assigned. -/
def buildTable (headers : List String) (data : List (List String)) :
    Except String Table :=
  let t := add_table (1 + data.length) headers.length
  match fillCellsAt headerMk t.rows 0 0 headers with
  | Except.error e => Except.error e
  | Except.ok rows1 =>
    match fillDataFrom rows1 1 data with
    | Except.error e => Except.error e
    | Except.ok rows2 => Except.ok { t with rows := rows2 }

/-- Proof-side normal form of `fillCellsAt`'s row updates: overwrite the
cells of a row from position `c` on with `mk` of the given values. -/
def writeFrom (mk : String → Cell) : List Cell → Nat → List String → List Cell
  | row, _, [] => row
  | row, c, v :: vs => writeFrom mk (row.set c (mk v)) (c + 1) vs

/-- Title-page constant `STUDENT_NAME` from the script. -/
def STUDENT_NAME : String := "Дубровских Н.Е."

/-- Title-page constant `STUDENT_FULL_NAME` from the script (defined but,
like in the source, never used). -/
def STUDENT_FULL_NAME : String := "Дубровских Никита Евгеньевич"

/-- Title-page constant `GROUP` from the script. -/
def GROUP : String := "221-361"

/-- Title-page constant `TEACHER` from the script. -/
def TEACHER : String := "Пардаев А.А."

/-- Title-page constant `TOPIC` from the script. -/
def TOPIC : String := "Разработка интеграционного решения для взаимодействия информационных систем предприятия"

/-- Title-page constant `YEAR` from the script. -/
def YEAR : String := "2025"

/-- The recurring title-page pattern: `p = doc.add_paragraph();
p.alignment = CENTER; run = p.add_run(s)` followed by the `tnrRun` font
assignments, and no `set_paragraph_format` call. -/
def centerPar (s : String) : Paragraph :=
  { blankParagraph with alignment := some Alignment.center, runs := [tnrRun s] }

/-- A title-page paragraph with no alignment assigned (the student and
teacher lines): `p = doc.add_paragraph(); run = p.add_run(s)` plus the
`tnrRun` font assignments. -/
def plainPar (s : String) : Paragraph :=
  { blankParagraph with runs := [tnrRun s] }

/-- `create_title_page(doc)` from the script: the fixed sequence of
centered lines, blank spacer paragraphs (`for _ in range(n):
doc.add_paragraph()`), the bold topic line, and the student/teacher lines
with their literal tab runs. -/
def create_title_page (doc : Doc) : Doc :=
  { doc with body := doc.body ++
      ([BodyElt.par (centerPar "Министерство науки и высшего образования Российской Федерации"),
        BodyElt.par (centerPar "Федеральное государственное автономное образовательное учреждение высшего образования"),
        BodyElt.par (centerPar "«МОСКОВСКИЙ ПОЛИТЕХНИЧЕСКИЙ УНИВЕРСИТЕТ»"),
        BodyElt.par (centerPar "(МОСКОВСКИЙ ПОЛИТЕХ)")]
       ++ List.replicate 5 (BodyElt.par blankParagraph)
       ++ [BodyElt.par (centerPar "КУРСОВОЙ ПРОЕКТ"),
           BodyElt.par (centerPar "по теме:"),
           BodyElt.par { blankParagraph with
             alignment := some Alignment.center
             runs := [{ tnrRun TOPIC with bold := some true }] },
           BodyElt.par blankParagraph,
           BodyElt.par (centerPar "по курсу Проектирование интеграционных решений"),
           BodyElt.par blankParagraph,
           BodyElt.par (centerPar "по направлению 09.03.03 – Прикладная информатика"),
           BodyElt.par (centerPar "Образовательная программа (профиль)"),
           BodyElt.par (centerPar "«Корпоративные информационные системы»")]
       ++ List.replicate 4 (BodyElt.par blankParagraph)
       ++ [BodyElt.par (plainPar ("Студент:\t\t\t\t\t\t\t\t\t" ++ STUDENT_NAME ++ ", " ++ GROUP)),
           BodyElt.par blankParagraph,
           BodyElt.par (plainPar ("Преподаватель:\t\t\t\t\t\t\t\t" ++ TEACHER))]
       ++ List.replicate 8 (BodyElt.par blankParagraph)
       ++ [BodyElt.par (centerPar ("Москва " ++ YEAR))]) }

/-- `create_introduction` from the script: the exact ordered sequence of block
appends with the literal content of the source. -/
def create_introduction (doc : Doc) : Doc :=
  let d := doc
  let d := add_heading d "ВВЕДЕНИЕ" 1
  let d := add_paragraph d "В современных условиях цифровизации бизнес-процессов предприятия сталкиваются с необходимостью интеграции множества разнородных информационных систем. Эффективное взаимодействие между корпоративными приложениями, базами данных и внешними сервисами становится критически важным фактором конкурентоспособности организации." false true
  let d := add_paragraph d "Актуальность темы обусловлена тем, что большинство современных предприятий используют несколько информационных систем: CRM для управления взаимоотношениями с клиентами, ERP для планирования ресурсов, системы складского учёта, бухгалтерские программы и другие специализированные приложения. Отсутствие интеграции между этими системами приводит к дублированию данных, ошибкам при ручном переносе информации и снижению оперативности принятия управленческих решений." false true
  let d := add_paragraph d "Объектом исследования является процесс информационного обмена между компонентами распределённой системы для картографического сервиса построения маршрутов." false true
  let d := add_paragraph d "Предметом исследования являются методы и технологии интеграции информационных систем на основе микросервисной архитектуры." false true
  let d := add_paragraph d "Целью курсового проекта является разработка архитектуры и прототипа интеграционного решения, обеспечивающего взаимодействие между несколькими разнородными информационными системами с использованием современных подходов, стандартов и инструментов интеграции." false true
  let d := add_paragraph d "Для достижения поставленной цели необходимо решить следующие задачи:" false true
  let d := add_list_item d "провести анализ предметной области и определить интеграционные требования;" (some 1)
  let d := add_list_item d "разработать архитектуру интеграционного решения;" (some 2)
  let d := add_list_item d "выбрать и обосновать инструменты и технологии интеграции;" (some 3)
  let d := add_list_item d "разработать схему обмена данными между системами;" (some 4)
  let d := add_list_item d "создать прототип информационной системы и интеграционного решения;" (some 5)
  let d := add_list_item d "провести тестирование корректности передачи и трансформации данных." (some 6)
  let d := add_paragraph d "В работе использованы методы системного анализа, объектно-ориентированного проектирования, а также современные практики разработки программного обеспечения: микросервисная архитектура, контейнеризация и непрерывная интеграция." false true
  d

/-- `create_section1` from the script: the exact ordered sequence of block
appends with the literal content of the source. -/
def create_section1 (doc : Doc) : Doc :=
  let d := doc
  let d := add_heading d "1 АНАЛИЗ ПРЕДМЕТНОЙ ОБЛАСТИ" 1
  let d := add_heading d "1.1 Описание бизнес-процесса" 2
  let d := add_paragraph d "Для данного курсового проекта выбран бизнес-процесс «Построение маршрута для путешественника». Данный процесс является типичным для картографических сервисов и туристических приложений, где пользователю необходимо построить оптимальный маршрут между несколькими точками интереса." false true
  let d := add_paragraph d "Декомпозиция бизнес-процесса на элементарные этапы:" false true
  let d := add_list_item d "Регистрация/аутентификация пользователя в системе;" (some 1)
  let d := add_list_item d "Отображение интерактивной карты с возможностью навигации;" (some 2)
  let d := add_list_item d "Добавление точек маршрута путём клика на карте;" (some 3)
  let d := add_list_item d "Получение картографических тайлов для визуализации;" (some 4)
  let d := add_list_item d "Расчёт оптимального маршрута между точками;" (some 5)
  let d := add_list_item d "Отображение построенного маршрута на карте;" (some 6)
  let d := add_list_item d "Сохранение маршрута в профиле пользователя." (some 7)
  let d := add_paragraph d "В процессе участвуют следующие роли:" false true
  let d := add_list_item d "Пользователь (путешественник) – основной актор, инициирующий построение маршрута;" none
  let d := add_list_item d "Система аутентификации – обеспечивает безопасный доступ к функциям;" none
  let d := add_list_item d "Картографический сервис – предоставляет визуальное отображение карты;" none
  let d := add_list_item d "Сервис маршрутизации – рассчитывает оптимальный путь." none
  let d := add_heading d "1.2 Выявление потоков данных" 2
  let d := add_paragraph d "Анализ потоков данных между компонентами системы выявил следующие основные направления обмена информацией:" false true
  let d := add_paragraph d "1. Поток аутентификации:" false true
  let d := add_list_item d "Пользователь → Сервис аутентификации: учётные данные (email, пароль);" none
  let d := add_list_item d "Сервис аутентификации → Пользователь: JWT токены (access, refresh)." none
  let d := add_paragraph d "2. Поток картографических данных:" false true
  let d := add_list_item d "Frontend → Сервис кеширования: запрос тайла (z, x, y);" none
  let d := add_list_item d "Сервис кеширования → Frontend: изображение тайла или 404;" none
  let d := add_list_item d "Сервис кеширования → Внешний провайдер: запрос тайла при отсутствии в кеше." none
  let d := add_paragraph d "3. Поток маршрутизации:" false true
  let d := add_list_item d "Frontend → OSRM API: координаты точек маршрута;" none
  let d := add_list_item d "OSRM API → Frontend: геометрия маршрута, расстояние, время." none
  let d := add_heading d "1.3 Концептуальная модель данных" 2
  let d := add_paragraph d "Концептуальная модель данных системы включает следующие основные сущности:" false true
  let d := add_paragraph d "User (Пользователь):" false true
  let d := add_list_item d "id: UUID – уникальный идентификатор;" none
  let d := add_list_item d "email: String – адрес электронной почты;" none
  let d := add_list_item d "password_hash: String – хеш пароля;" none
  let d := add_list_item d "created_at: Timestamp – дата регистрации;" none
  let d := add_list_item d "updated_at: Timestamp – дата последнего обновления." none
  let d := add_paragraph d "Tile (Картографический тайл):" false true
  let d := add_list_item d "z: Integer – уровень масштабирования;" none
  let d := add_list_item d "x: Integer – координата по горизонтали;" none
  let d := add_list_item d "y: Integer – координата по вертикали;" none
  let d := add_list_item d "data: Binary – бинарные данные изображения;" none
  let d := add_list_item d "cached_at: Timestamp – время кеширования." none
  let d := add_paragraph d "Route (Маршрут):" false true
  let d := add_list_item d "id: UUID – уникальный идентификатор;" none
  let d := add_list_item d "user_id: UUID – владелец маршрута;" none
  let d := add_list_item d "waypoints: Array<Point> – точки маршрута;" none
  let d := add_list_item d "geometry: GeoJSON – геометрия маршрута;" none
  let d := add_list_item d "distance: Float – общая длина в метрах;" none
  let d := add_list_item d "duration: Float – время прохождения в секундах." none
  d

/-- `create_section2` from the script: the exact ordered sequence of block
appends with the literal content of the source. -/
def create_section2 (doc : Doc) : Doc :=
  let d := doc
  let d := add_heading d "2 ПРОЕКТИРОВАНИЕ АРХИТЕКТУРЫ" 1
  let d := add_heading d "2.1 Выбор шаблона интеграции" 2
  let d := add_paragraph d "Для реализации интеграционного решения был проведён сравнительный анализ основных шаблонов интеграции:" false true
  let d := add_paragraph d "1. Point-to-Point (Точка-точка) – прямое соединение между системами. Преимущества: простота реализации, низкая задержка. Недостатки: плохая масштабируемость, сложность поддержки при увеличении количества систем." false true
  let d := add_paragraph d "2. Enterprise Service Bus (ESB) – централизованная шина обмена сообщениями. Преимущества: единая точка управления, трансформация данных. Недостатки: единая точка отказа, высокая сложность." false true
  let d := add_paragraph d "3. API Gateway – единая точка входа для клиентских приложений. Преимущества: централизованная аутентификация, маршрутизация запросов, агрегация данных. Недостатки: дополнительная задержка." false true
  let d := add_paragraph d "4. Микросервисная архитектура с прямым взаимодействием через REST API. Преимущества: независимое развёртывание сервисов, технологическая гибкость, горизонтальное масштабирование. Недостатки: сложность отладки распределённых систем." false true
  let d := add_paragraph d "Для данного проекта выбрана микросервисная архитектура с элементами API Gateway (реализован через Nginx reverse proxy). Такой выбор обоснован следующими факторами:" false true
  let d := add_list_item d "возможность использования различных технологий для каждого сервиса (Rust, Go, TypeScript);" none
  let d := add_list_item d "независимое масштабирование компонентов под нагрузку;" none
  let d := add_list_item d "изоляция отказов – сбой одного сервиса не влияет на другие;" none
  let d := add_list_item d "упрощённое развёртывание через Docker контейнеры." none
  let d := add_heading d "2.2 Логическая архитектура решения" 2
  let d := add_paragraph d "Разработанная архитектура включает следующие компоненты:" false true
  let d := add_paragraph d "1. Frontend (React + TypeScript + Vite):" false true
  let d := add_list_item d "интерактивная карта на базе Leaflet;" none
  let d := add_list_item d "построение маршрутов через leaflet-routing-machine;" none
  let d := add_list_item d "взаимодействие с backend через REST API." none
  let d := add_paragraph d "2. Auth Service (Rust + Axum):" false true
  let d := add_list_item d "регистрация и аутентификация пользователей;" none
  let d := add_list_item d "выдача и обновление JWT токенов;" none
  let d := add_list_item d "хранение данных в PostgreSQL." none
  let d := add_paragraph d "3. Cache Service (Go + Gin):" false true
  let d := add_list_item d "кеширование картографических тайлов;" none
  let d := add_list_item d "три реализации хранилища: Map (in-memory), Filesystem, SQLite;" none
  let d := add_list_item d "проксирование запросов к внешним tile-серверам." none
  let d := add_paragraph d "4. Nginx (Reverse Proxy):" false true
  let d := add_list_item d "маршрутизация запросов между frontend и backend;" none
  let d := add_list_item d "раздача статических файлов;" none
  let d := add_list_item d "балансировка нагрузки (при необходимости)." none
  let d := add_paragraph d "5. PostgreSQL:" false true
  let d := add_list_item d "хранение данных пользователей;" none
  let d := add_list_item d "поддержка транзакций и ACID-гарантий." none
  let d := add_paragraph d "Все компоненты объединены в единую Docker-сеть (guide_helper_network), что обеспечивает изолированное сетевое взаимодействие между контейнерами." false true
  let d := add_heading d "2.3 Выбор технологий и инструментов" 2
  let d := add_paragraph d "Выбор технологий для каждого компонента обоснован следующими критериями:" false true
  let d := add_paragraph d "Rust для сервиса аутентификации:" false true
  let d := add_list_item d "безопасность памяти без сборщика мусора;" none
  let d := add_list_item d "высокая производительность;" none
  let d := add_list_item d "строгая типизация и проверка на этапе компиляции;" none
  let d := add_list_item d "экосистема: Axum (веб-фреймворк), SQLx (работа с БД), jsonwebtoken (JWT)." none
  let d := add_paragraph d "Go для сервиса кеширования:" false true
  let d := add_list_item d "простота языка и быстрая разработка;" none
  let d := add_list_item d "отличная поддержка конкурентности (горутины);" none
  let d := add_list_item d "низкое потребление памяти;" none
  let d := add_list_item d "экосистема: Gin (веб-фреймворк), Zap (логирование)." none
  let d := add_paragraph d "TypeScript + React для frontend:" false true
  let d := add_list_item d "типизация для надёжности кода;" none
  let d := add_list_item d "богатая экосистема компонентов;" none
  let d := add_list_item d "Vite для быстрой сборки и HMR." none
  let d := add_paragraph d "Docker и Docker Compose для контейнеризации:" false true
  let d := add_list_item d "воспроизводимость окружения;" none
  let d := add_list_item d "изоляция зависимостей;" none
  let d := add_list_item d "простота развёртывания." none
  d

/-- `create_section3` from the script: the exact ordered sequence of block
appends with the literal content of the source. -/
def create_section3 (doc : Doc) : Doc :=
  let d := doc
  let d := add_heading d "3 РАЗРАБОТКА ИНТЕГРАЦИОННОГО РЕШЕНИЯ" 1
  let d := add_heading d "3.1 Схема обмена данными" 2
  let d := add_paragraph d "В системе используется синхронный обмен данными через REST API. Формат передачи данных – JSON для структурированных данных и бинарный формат для изображений тайлов." false true
  let d := add_paragraph d "Основные эндпоинты API:" false true
  let d := add_paragraph d "Auth Service (порт 8080):" false true
  let d := add_list_item d "GET /healthz – проверка работоспособности сервиса;" none
  let d := add_list_item d "POST /api/v1/auth/register – регистрация пользователя;" none
  let d := add_list_item d "POST /api/v1/auth/login – вход в систему;" none
  let d := add_list_item d "POST /api/v1/auth/refresh – обновление access токена." none
  let d := add_paragraph d "Cache Service (порт 8080):" false true
  let d := add_list_item d "GET /api/v1/healthz – проверка работоспособности;" none
  let d := add_list_item d "GET /api/v1/tile/:z/:x/:y – получение тайла по координатам." none
  let d := add_heading d "3.2 Контракты сообщений" 2
  let d := add_paragraph d "Контракт регистрации пользователя:" false true
  let d := add_paragraph d "Запрос (POST /api/v1/auth/register):" false false
  let d := add_paragraph d "\x7b\n  \"email\": \"user@example.com\",\n  \"password\": \"securePassword123\"\n\x7d" false false
  let d := add_paragraph d "Успешный ответ (201 Created):" false false
  let d := add_paragraph d "\x7b\n  \"id\": \"550e8400-e29b-41d4-a716-446655440000\",\n  \"email\": \"user@example.com\",\n  \"created_at\": \"2025-01-15T10:30:00Z\"\n\x7d" false false
  let d := add_paragraph d "Контракт аутентификации:" false true
  let d := add_paragraph d "Запрос (POST /api/v1/auth/login):" false false
  let d := add_paragraph d "\x7b\n  \"email\": \"user@example.com\",\n  \"password\": \"securePassword123\"\n\x7d" false false
  let d := add_paragraph d "Успешный ответ (200 OK):" false false
  let d := add_paragraph d "\x7b\n  \"access_token\": \"eyJhbGciOiJIUzI1NiIs...\",\n  \"refresh_token\": \"eyJhbGciOiJIUzI1NiIs...\",\n  \"token_type\": \"Bearer\",\n  \"expires_in\": 900\n\x7d" false false
  let d := add_paragraph d "Контракт получения тайла:" false true
  let d := add_paragraph d "Запрос: GET /api/v1/tile/15/19456/11256" false false
  let d := add_paragraph d "Ответ: бинарные данные изображения (image/png) или 404 Not Found." false false
  let d := add_heading d "3.3 Обработка ошибок" 2
  let d := add_paragraph d "Для обработки ошибок разработан единый формат ответа:" false true
  let d := add_paragraph d "\x7b\n  \"error\": \x7b\n    \"code\": \"INVALID_CREDENTIALS\",\n    \"message\": \"Invalid email or password\",\n    \"details\": null\n  \x7d\n\x7d" false false
  let d := add_paragraph d "Обрабатываемые сценарии ошибок:" false true
  let d := add_list_item d "INVALID_CREDENTIALS – неверные учётные данные при входе;" (some 1)
  let d := add_list_item d "USER_ALREADY_EXISTS – пользователь с таким email уже зарегистрирован;" (some 2)
  let d := add_list_item d "TOKEN_EXPIRED – срок действия токена истёк;" (some 3)
  let d := add_list_item d "INVALID_TOKEN – недействительный токен;" (some 4)
  let d := add_list_item d "TILE_NOT_FOUND – тайл не найден в кеше и у провайдера;" (some 5)
  let d := add_list_item d "INTERNAL_ERROR – внутренняя ошибка сервера." (some 6)
  let d := add_paragraph d "При возникновении ошибок в сервисе кеширования применяется стратегия graceful degradation: при недоступности внешнего tile-сервера возвращается кешированная версия тайла (если доступна) или placeholder-изображение." false true
  d

/-- `create_section4` from the script: its block appends, the benchmark
table (`section4Table`, propagating an `IndexError` exactly where the
Python loops would raise one), the bare `doc.add_paragraph()` spacer after
the table, and the remaining appends. -/
def create_section4 (doc : Doc) : Except String Doc :=
  let d := doc
  let d := add_heading d "4 РЕАЛИЗАЦИЯ И ТЕСТИРОВАНИЕ" 1
  let d := add_heading d "4.1 Реализация прототипа" 2
  let d := add_paragraph d "Прототип системы реализован в соответствии с разработанной архитектурой. Структура проекта организована по принципу монорепозитория:" false true
  let d := add_paragraph d "/\n├── frontend/           # React приложение\n├── backend/\n│   ├── auth/          # Rust сервис аутентификации\n│   └── cache/         # Go сервис кеширования\n└── docker-compose.yml # Оркестрация контейнеров" false false
  let d := add_paragraph d "Сервис аутентификации (Auth Service) реализует паттерн Clean Architecture с разделением на слои:" false true
  let d := add_list_item d "domain – доменные модели (User);" none
  let d := add_list_item d "usecase – бизнес-логика (AuthUseCase, JwtService, PasswordService);" none
  let d := add_list_item d "repository – работа с хранилищем данных (PostgresUserRepository);" none
  let d := add_list_item d "delivery – HTTP обработчики (AuthHandler)." none
  let d := add_paragraph d "Сервис кеширования (Cache Service) реализует три варианта хранилища с единым интерфейсом:" false true
  let d := add_paragraph d "type Cache interface \x7b\n    Get(key string) ([]byte, error)\n    Set(key string, value []byte) error\n\x7d" false false
  let d := add_paragraph d "Реализации кеша:" false true
  let d := add_list_item d "MapCache – хранение в sync.Map (in-memory);" none
  let d := add_list_item d "FilesystemCache – хранение на файловой системе;" none
  let d := add_list_item d "SQLiteCache – хранение в базе данных SQLite." none
  let d := add_paragraph d "Frontend реализован как SPA (Single Page Application) на React с использованием библиотеки Leaflet для отображения карты. Маршрутизация между точками выполняется через OSRM API." false true
  let d := add_heading d "4.2 Тестирование" 2
  let d := add_paragraph d "Для сервиса кеширования разработан комплексный набор бенчмарков, позволяющий сравнить производительность различных реализаций хранилища." false true
  let d := add_paragraph d "Результаты бенчмарков операции записи (Set):" false true
  match section4Table with
  | Except.error e => Except.error e
  | Except.ok t =>
    let d := { d with body := d.body ++ [BodyElt.table t] }
    let d := { d with body := d.body ++ [BodyElt.par blankParagraph] }
    let d := add_paragraph d "Результаты показывают, что MapCache обеспечивает наилучшую производительность для операций записи и чтения, однако не сохраняет данные между перезапусками. FilesystemCache предоставляет хороший баланс между производительностью и персистентностью. SQLiteCache обеспечивает ACID-гарантии, но имеет наибольшую задержку." false true
    let d := add_paragraph d "Функциональное тестирование включало:" false true
    let d := add_list_item d "проверку регистрации и аутентификации пользователей;" (some 1)
    let d := add_list_item d "тестирование выдачи и обновления JWT токенов;" (some 2)
    let d := add_list_item d "проверку кеширования тайлов;" (some 3)
    let d := add_list_item d "тестирование построения маршрутов на карте;" (some 4)
    let d := add_list_item d "проверку обработки ошибок." (some 5)
    let d := add_paragraph d "Все функциональные тесты пройдены успешно. Система корректно обрабатывает штатные и ошибочные сценарии." false true
    Except.ok d

/-- `create_conclusion` from the script: the exact ordered sequence of block
appends with the literal content of the source. -/
def create_conclusion (doc : Doc) : Doc :=
  let d := doc
  let d := add_heading d "ЗАКЛЮЧЕНИЕ" 1
  let d := add_paragraph d "В ходе выполнения курсового проекта была разработана архитектура и реализован прототип интеграционного решения для взаимодействия информационных систем предприятия на примере картографического сервиса построения маршрутов." false true
  let d := add_paragraph d "Основные результаты работы:" false true
  let d := add_list_item d "Проведён анализ предметной области, выполнена декомпозиция бизнес-процесса «Построение маршрута», выявлены потоки данных между компонентами системы и разработана концептуальная модель данных." (some 1)
  let d := add_list_item d "Разработана архитектура интеграционного решения на основе микросервисного подхода. Выбор обоснован требованиями к масштабируемости, изоляции отказов и возможности использования различных технологий." (some 2)
  let d := add_list_item d "Выбраны и обоснованы технологии реализации: Rust с Axum для сервиса аутентификации, Go с Gin для сервиса кеширования, React с TypeScript для frontend, PostgreSQL для хранения данных, Docker для контейнеризации." (some 3)
  let d := add_list_item d "Разработана схема обмена данными в формате JSON, определены контракты сообщений для всех точек интеграции, описаны алгоритмы обработки ошибок." (some 4)
  let d := add_list_item d "Реализован работающий прототип системы, включающий сервис аутентификации с JWT токенами, сервис кеширования с тремя реализациями хранилища, web-интерфейс с интерактивной картой." (some 5)
  let d := add_list_item d "Проведено тестирование системы, включая бенчмарки производительности реализаций кеша и функциональное тестирование всех компонентов." (some 6)
  let d := add_paragraph d "Разработанное решение демонстрирует современные подходы к интеграции информационных систем и может быть использовано как основа для создания полнофункционального картографического сервиса." false true
  let d := add_paragraph d "Направления дальнейшего развития:" false true
  let d := add_list_item d "добавление асинхронного обмена сообщениями через брокер (RabbitMQ, Kafka);" none
  let d := add_list_item d "реализация API Gateway с централизованной аутентификацией;" none
  let d := add_list_item d "добавление мониторинга и трассировки запросов;" none
  let d := add_list_item d "разработка мобильного приложения." none
  d

/-- The literal bibliography entries of `create_references`. -/
def references : List String :=
  ["ГОСТ 7.32-2017. Межгосударственный стандарт. Система стандартов по информации, библиотечному и издательскому делу. Отчет о научно-исследовательской работе. Структура и правила оформления.",
   "Hohpe, G. Enterprise Integration Patterns: Designing, Building, and Deploying Messaging Solutions / G. Hohpe, B. Woolf. – Addison-Wesley, 2003. – 736 p.",
   "Newman, S. Building Microservices: Designing Fine-Grained Systems / S. Newman. – 2nd ed. – O\x27Reilly Media, 2021. – 616 p.",
   "Richardson, C. Microservices Patterns: With examples in Java / C. Richardson. – Manning Publications, 2018. – 520 p.",
   "Kleppmann, M. Designing Data-Intensive Applications / M. Kleppmann. – O\x27Reilly Media, 2017. – 616 p.",
   "Rust Programming Language [Электронный ресурс]. – Режим доступа: https://www.rust-lang.org/ (дата обращения: 10.12.2025).",
   "Go Programming Language [Электронный ресурс]. – Режим доступа: https://go.dev/ (дата обращения: 10.12.2025).",
   "React Documentation [Электронный ресурс]. – Режим доступа: https://react.dev/ (дата обращения: 10.12.2025).",
   "Docker Documentation [Электронный ресурс]. – Режим доступа: https://docs.docker.com/ (дата обращения: 10.12.2025).",
   "Leaflet – an open-source JavaScript library for interactive maps [Электронный ресурс]. – Режим доступа: https://leafletjs.com/ (дата обращения: 10.12.2025).",
   "OSRM – Open Source Routing Machine [Электронный ресурс]. – Режим доступа: https://project-osrm.org/ (дата обращения: 10.12.2025).",
   "PostgreSQL Documentation [Электронный ресурс]. – Режим доступа: https://www.postgresql.org/docs/ (дата обращения: 10.12.2025).",
   "JWT.io – JSON Web Tokens [Электронный ресурс]. – Режим доступа: https://jwt.io/ (дата обращения: 10.12.2025).",
   "Axum – Ergonomic and modular web framework [Электронный ресурс]. – Режим доступа: https://github.com/tokio-rs/axum (дата обращения: 10.12.2025).",
   "Gin Web Framework [Электронный ресурс]. – Режим доступа: https://gin-gonic.com/ (дата обращения: 10.12.2025)."]

/-- One bibliography paragraph from the `create_references` loop
(`enumerate(references, 1)`): justified, a single run
`f"\x7bi\x7d. \x7bref\x7d"` with the full font pattern, and
`set_paragraph_format(p, first_line_indent=0)`. -/
def referencePar (i : Nat) (ref : String) : Paragraph :=
  let p := { blankParagraph with alignment := some Alignment.justify }
  let p := { p with runs := p.runs ++ [tnrRun (toString i ++ ". " ++ ref)] }
  set_paragraph_format p 0 0 1.5 (some 0)

/-- `create_references(doc)` from the script: the heading followed by the
numbered bibliography paragraphs in order. -/
def create_references (doc : Doc) : Doc :=
  let d := add_heading doc "СПИСОК ИСПОЛЬЗОВАННЫХ ИСТОЧНИКОВ" 1
  { d with body := d.body ++
      (List.enumFrom 1 references).map fun ir => BodyElt.par (referencePar ir.1 ir.2) }

/-- `main()` from the script: the full composition sequence.  The final
`doc.save(output_path)` performs the file write and is outside the
embedding; the finished in-memory document is returned instead (an
`IndexError` from the table fill would propagate, as in Python). -/
def main : Except String Doc :=
  let doc := newDocument
  let doc := setup_document doc
  let doc := create_title_page doc
  let doc := add_page_break doc
  let doc := create_toc doc
  let doc := add_page_break doc
  let doc := create_introduction doc
  let doc := add_page_break doc
  let doc := create_section1 doc
  let doc := add_page_break doc
  let doc := create_section2 doc
  let doc := add_page_break doc
  let doc := create_section3 doc
  let doc := add_page_break doc
  match create_section4 doc with
  | Except.error e => Except.error e
  | Except.ok doc2 =>
    let doc := add_page_break doc2
    let doc := create_conclusion doc
    let doc := add_page_break doc
    let doc := create_references doc
    Except.ok doc

/-- All runs of a document in body order: the runs of every paragraph and
of every table cell (page breaks carry none). -/
def docRuns (d : Doc) : List Run :=
  (d.body.map fun b =>
    match b with
    | BodyElt.par p => p.runs
    | BodyElt.table t => (t.rows.map fun row => (row.map cellRuns).flatten).flatten
    | BodyElt.pageBreak => []).flatten

/-- Whether an XML node is one of the low-level field nodes that only
`add_page_number` ever creates (`w:fldChar` or `w:instrText`). -/
def isFieldNode : XmlNode → Bool
  | XmlNode.fldChar _ => true
  | XmlNode.instrText _ _ => true
  | XmlNode.text _ => false

/-- Whether some run of the document carries a field node. -/
def docContainsFieldNode (d : Doc) : Bool :=
  (docRuns d).any fun r => r.nodes.any isFieldNode

/-- Whether every run of the document carries the East-Asian font fallback
"Times New Roman". -/
def allRunsEastAsiaTNR (d : Doc) : Bool :=
  (docRuns d).all fun r => r.eastAsia == some "Times New Roman"

/-- Semantic block kinds of the style engine (§3 of the specification):
headings (with level), body paragraphs (bold / indent flags), list items
(optional ordinal). -/
inductive BlockSpec where
  | heading (text : String) (level : Int)
  | paragraph (text : String) (bold indented : Bool)
  | listItem (text : String) (number : Option Int)
deriving DecidableEq, Repr

/-- Dispatch of a block append to the script's operation for that kind. -/
def appendBlock (d : Doc) : BlockSpec → Doc
  | BlockSpec.heading t l => add_heading d t l
  | BlockSpec.paragraph t b i => add_paragraph d t b i
  | BlockSpec.listItem t n => add_list_item d t n

/-! ### Properties -/

theorem lastOf_append_single {α : Type} (l : List α) (a : α) :
    lastOf (l ++ [a]) = some a := by
  induction l with
  | nil => rfl
  | cons x xs ih =>
    cases xs with
    | nil => rfl
    | cons y ys => simpa [lastOf] using ih

theorem lastPar_concat (d : Doc) (p : Paragraph) :
    lastPar { d with body := d.body ++ [BodyElt.par p] } = some p := by
  simp [lastPar, lastOf_append_single]

theorem string_append_empty (s : String) : s ++ "" = s := by
  cases s
  show String.append _ _ = _
  simp [String.append]

theorem quarter_cm_ne_zero : (1.25 : Rat) ≠ 0 := by norm_num

/-- The `create_section4` table is the generalized `buildTable` applied to
the source's literal header and data rows. -/
theorem section4Table_matches_buildTable :
    section4Table.map Table.rows = (buildTable section4Headers section4Data).map Table.rows := by
  rfl

theorem set_append_len {α : Type} (pre : List α) (x y : α) (suf : List α) :
    (pre ++ x :: suf).set pre.length y = pre ++ y :: suf := by
  induction pre with
  | nil => rfl
  | cons a l ih => simp [ih]

theorem get_append_len {α : Type} (pre : List α) (x : α) (suf : List α)
    (h : pre.length < (pre ++ x :: suf).length) :
    (pre ++ x :: suf).get ⟨pre.length, h⟩ = x := by
  induction pre with
  | nil => rfl
  | cons a l ih => simpa using ih (by simpa using h)

theorem get_set_self {α : Type} :
    ∀ (l : List α) (i : Nat) (x : α) (h : i < (l.set i x).length),
      (l.set i x).get ⟨i, h⟩ = x := by
  intro l
  induction l with
  | nil => intro i x h; simp at h
  | cons a as ih =>
    intro i x h
    cases i with
    | zero => rfl
    | succ j => simpa using ih j x (by simpa using h)

theorem set_set_idx {α : Type} :
    ∀ (l : List α) (i : Nat) (x y : α), (l.set i x).set i y = l.set i y := by
  intro l
  induction l with
  | nil => intro i x y; rfl
  | cons a as ih =>
    intro i x y
    cases i with
    | zero => rfl
    | succ j => simp [ih]

theorem set_get_cancel {α : Type} :
    ∀ (l : List α) (i : Nat) (h : i < l.length), l.set i (l.get ⟨i, h⟩) = l := by
  intro l
  induction l with
  | nil => intro i h; simp at h
  | cons a as ih =>
    intro i h
    cases i with
    | zero => rfl
    | succ j => exact congrArg (List.cons a) (ih j (by simpa using h))

theorem replicate_drop {α : Type} :
    ∀ (i n : Nat) (a : α), (List.replicate n a).drop i = List.replicate (n - i) a := by
  intro i
  induction i with
  | zero => intro n a; rfl
  | succ j ih =>
    intro n a
    cases n with
    | zero => simp
    | succ m => simpa [List.replicate_succ] using ih m a

theorem fillCellsAt_ok (mk : String → Cell) :
    ∀ (vs : List String) (rows : List (List Cell)) (ridx c : Nat)
      (hr : ridx < rows.length),
      c + vs.length ≤ (rows.get ⟨ridx, hr⟩).length →
      fillCellsAt mk rows ridx c vs =
        Except.ok (rows.set ridx (writeFrom mk (rows.get ⟨ridx, hr⟩) c vs)) := by
  intro vs
  induction vs with
  | nil =>
    intro rows ridx c hr _
    simp only [fillCellsAt, writeFrom]
    rw [set_get_cancel rows ridx hr]
  | cons v vs ih =>
    intro rows ridx c hr hlen
    have hlen' : c + vs.length + 1 ≤ (rows.get ⟨ridx, hr⟩).length := by
      rw [List.length_cons] at hlen; omega
    have hc : c < (rows.get ⟨ridx, hr⟩).length := by omega
    have hsome : rows.get? ridx = some (rows.get ⟨ridx, hr⟩) := List.get?_eq_get hr
    have hr2 : ridx < (rows.set ridx ((rows.get ⟨ridx, hr⟩).set c (mk v))).length := by
      simpa using hr
    have hget : (rows.set ridx ((rows.get ⟨ridx, hr⟩).set c (mk v))).get ⟨ridx, hr2⟩ =
        (rows.get ⟨ridx, hr⟩).set c (mk v) := get_set_self _ _ _ _
    have hlen2 : (c + 1) + vs.length ≤
        ((rows.set ridx ((rows.get ⟨ridx, hr⟩).set c (mk v))).get ⟨ridx, hr2⟩).length := by
      rw [hget, List.length_set]; omega
    have hrec := ih _ ridx (c + 1) hr2 hlen2
    rw [hget] at hrec
    simp only [fillCellsAt, hsome, if_pos hc]
    rw [hrec, set_set_idx]
    rfl

theorem writeFrom_append (mk : String → Cell) :
    ∀ (vs : List String) (pre suf : List Cell), vs.length ≤ suf.length →
      writeFrom mk (pre ++ suf) pre.length vs =
        pre ++ vs.map mk ++ suf.drop vs.length := by
  intro vs
  induction vs with
  | nil => intro pre suf h; simp [writeFrom]
  | cons v vs ih =>
    intro pre suf h
    cases suf with
    | nil => simp at h
    | cons s ss =>
      show writeFrom mk ((pre ++ s :: ss).set pre.length (mk v)) (pre.length + 1) vs = _
      rw [set_append_len]
      have e2 : pre ++ mk v :: ss = (pre ++ [mk v]) ++ ss := by simp
      have e3 : pre.length + 1 = (pre ++ [mk v]).length := by simp
      rw [e2, e3, ih (pre ++ [mk v]) ss (by simpa using h)]
      simp

theorem fillDataFrom_ok (w : Nat) :
    ∀ (data : List (List String)) (pre : List (List Cell)),
      (∀ rd ∈ data, rd.length ≤ w) →
      fillDataFrom (pre ++ List.replicate data.length (List.replicate w newCell))
          pre.length data =
        Except.ok (pre ++ data.map fun rd =>
          rd.map dataMk ++ List.replicate (w - rd.length) newCell) := by
  intro data
  induction data with
  | nil => intro pre h; simp [fillDataFrom]
  | cons rd rest ih =>
    intro pre h
    have hw : rd.length ≤ w := h rd (List.mem_cons_self rd rest)
    have hrows : pre ++ List.replicate (rd :: rest).length (List.replicate w newCell) =
        pre ++ List.replicate w newCell ::
          List.replicate rest.length (List.replicate w newCell) := by
      simp [List.replicate_succ]
    rw [hrows]
    have hr : pre.length <
        (pre ++ List.replicate w newCell ::
          List.replicate rest.length (List.replicate w newCell)).length := by
      simp
    have hget := get_append_len pre (List.replicate w newCell)
      (List.replicate rest.length (List.replicate w newCell)) hr
    have hfill := fillCellsAt_ok dataMk rd _ pre.length 0 hr (by rw [hget]; simpa using hw)
    rw [hget] at hfill
    have hwrite : writeFrom dataMk (List.replicate w newCell) 0 rd =
        rd.map dataMk ++ List.replicate (w - rd.length) newCell := by
      have := writeFrom_append dataMk rd [] (List.replicate w newCell) (by simpa using hw)
      simpa [replicate_drop] using this
    show (match fillCellsAt dataMk _ pre.length 0 rd with
      | Except.ok rows2 => fillDataFrom rows2 (pre.length + 1) rest
      | Except.error e => Except.error e) = _
    rw [hfill, hwrite, set_append_len]
    have e2 : pre ++ (rd.map dataMk ++ List.replicate (w - rd.length) newCell) ::
        List.replicate rest.length (List.replicate w newCell) =
        (pre ++ [rd.map dataMk ++ List.replicate (w - rd.length) newCell]) ++
          List.replicate rest.length (List.replicate w newCell) := by simp
    have e3 : pre.length + 1 =
        (pre ++ [rd.map dataMk ++ List.replicate (w - rd.length) newCell]).length := by simp
    rw [e2, e3]
    show fillDataFrom ((pre ++ [rd.map dataMk ++ List.replicate (w - rd.length) newCell]) ++
        List.replicate rest.length (List.replicate w newCell))
      (pre ++ [rd.map dataMk ++ List.replicate (w - rd.length) newCell]).length rest = _
    rw [ih _ (fun r hrr => h r (List.mem_cons_of_mem rd hrr))]
    simp

/-- Evaluation of the generalized table fill: with a header row of width
`w` and data rows each no wider than `w`, the fill succeeds, the header row
is the bolded header cells, and every data row is its cells followed by
untouched fresh cells as padding. -/
theorem buildTable_eval (headers : List String) (data : List (List String))
    (hd : ∀ rd ∈ data, rd.length ≤ headers.length) :
    buildTable headers data = Except.ok
      { style := none
        rows := headers.map headerMk ::
          data.map fun rd =>
            rd.map dataMk ++ List.replicate (headers.length - rd.length) newCell } := by
  have hrep : List.replicate (1 + data.length) (List.replicate headers.length newCell) =
      List.replicate headers.length newCell ::
        List.replicate data.length (List.replicate headers.length newCell) := by
    rw [Nat.add_comm, List.replicate_succ]
  have hr : (0 : Nat) <
      (List.replicate headers.length newCell ::
        List.replicate data.length (List.replicate headers.length newCell)).length := by
    simp
  have hfill := fillCellsAt_ok headerMk headers
    (List.replicate headers.length newCell ::
      List.replicate data.length (List.replicate headers.length newCell)) 0 0 hr (by simp)
  have hwrite : writeFrom headerMk (List.replicate headers.length newCell) 0 headers =
      headers.map headerMk := by
    have := writeFrom_append headerMk headers [] (List.replicate headers.length newCell)
      (by simp)
    simpa [replicate_drop] using this
  rw [show (List.replicate headers.length newCell ::
        List.replicate data.length (List.replicate headers.length newCell)).get ⟨0, hr⟩ =
      List.replicate headers.length newCell from rfl, hwrite] at hfill
  have hdata := fillDataFrom_ok headers.length data [headers.map headerMk] hd
  simp only [List.singleton_append, List.length_singleton] at hdata
  unfold buildTable add_table
  rw [hrep]
  show (match fillCellsAt headerMk
      (List.replicate headers.length newCell ::
        List.replicate data.length (List.replicate headers.length newCell)) 0 0 headers with
    | Except.error e => Except.error e
    | Except.ok rows1 =>
      match fillDataFrom rows1 1 data with
      | Except.error e => Except.error e
      | Except.ok rows2 => Except.ok ({ style := none, rows := rows2 } : Table)) = _
  rw [hfill]
  show (match fillDataFrom
      ((List.replicate headers.length newCell ::
        List.replicate data.length (List.replicate headers.length newCell)).set 0
        (headers.map headerMk)) 1 data with
    | Except.error e => Except.error e
    | Except.ok rows2 => Except.ok ({ style := none, rows := rows2 } : Table)) = _
  rw [show (List.replicate headers.length newCell ::
      List.replicate data.length (List.replicate headers.length newCell)).set 0
      (headers.map headerMk) =
      headers.map headerMk ::
        List.replicate data.length (List.replicate headers.length newCell) from rfl, hdata]

/-- Claim C2: for every run `r`, `add_page_number(r)` appends exactly three
nodes to `r`'s node list, contiguously and in the fixed order FieldBegin
(`fldCharType` "begin"), FieldInstruction with text "PAGE", FieldEnd
(`fldCharType` "end"), with no other nodes interleaved; since the result is
the same function of the input run on every invocation, the same three-node
structure is produced however many times it is invoked in one document. -/
theorem add_page_number_appends_field_triplet (r : Run) :
    (add_page_number r).nodes =
      r.nodes ++ [XmlNode.fldChar "begin", XmlNode.instrText "preserve" "PAGE",
                  XmlNode.fldChar "end"]
    ∧ (add_page_number r).nodes.length = r.nodes.length + 3 := by
  constructor
  · simp [add_page_number]
  · simp [add_page_number]

theorem char_le_toNat {a b : Char} (h : a ≤ b) : a.toNat ≤ b.toNat := by
  simpa [Char.le_def, UInt32.le_def, BitVec.le_def, Char.toNat, UInt32.toNat] using h

theorem pyCharUpper_not_lower (c : Char) :
    isModeledLowerChar (pyCharUpper c) = false := by
  by_cases h : c.toNat < 1106
  · -- every character up to ё (U+0451 = 1105) is checked exhaustively
    have key : ∀ n, n < 1106 → isModeledLowerChar (pyCharUpper (Char.ofNat n)) = false := by
      set_option maxRecDepth 10000 in decide
    have hk := key c.toNat h
    rwa [Char.ofNat_toNat] at hk
  · -- above that range the character has no modeled case mapping
    have hy : ('я' : Char).toNat = 1103 := by decide
    have hz : ('z' : Char).toNat = 122 := by decide
    have hyle : ¬ (c ≤ 'я') := fun hle => by
      have := char_le_toNat hle
      omega
    have hzle : ¬ (c ≤ 'z') := fun hle => by
      have := char_le_toNat hle
      omega
    have hne : ¬ (c = 'ё') := fun he => by
      rw [he] at h
      exact h (by decide)
    have hup : ¬ (c.toNat ≥ 97 ∧ c.toNat ≤ 122) := by omega
    simp [pyCharUpper, hyle, hne, Char.toUpper, hup, isModeledLowerChar, hzle]

theorem pyUpper_no_lowercase (s : String) : hasModeledLower (pyUpper s) = false := by
  simp only [hasModeledLower, pyUpper, List.any_eq_false]
  intro c hc
  obtain ⟨b, hb, rfl⟩ := List.mem_map.mp hc
  simp [pyCharUpper_not_lower]

/-- Claim C3: appending a level-1 heading produces a paragraph whose single
run carries the fully upper-cased input text (no lower-case letter of the
program's alphabets — ASCII or Cyrillic — remains, whatever the input
case; in particular the specification's own examples "введение" and "abc"
come out as "ВВЕДЕНИЕ" and "ABC"), centered, bold, font size 14 pt, line
spacing 1.5, space-after 12 pt, space-before 0, and first-line indent 0. -/
theorem add_heading_level1_style (d : Doc) (text : String) :
    lastPar (add_heading d text 1) =
      some { alignment := some Alignment.center
             runs := [{ nodes := [XmlNode.text (pyUpper text)]
                        bold := some true
                        fontName := some "Times New Roman"
                        fontSize := some (Pt 14)
                        eastAsia := some "Times New Roman" }]
             paragraph_format :=
               { space_before := some (Pt 0)
                 space_after := some (Pt 12)
                 line_spacing := some (1.5 : Rat)
                 first_line_indent := some (Cm 0) } }
    ∧ hasModeledLower (pyUpper text) = false
    ∧ pyUpper "введение" = "ВВЕДЕНИЕ"
    ∧ pyUpper "abc" = "ABC" := by
  refine ⟨?_, pyUpper_no_lowercase text, by decide, by decide⟩
  simp [add_heading, set_paragraph_format, tnrRun, blankParagraph, lastPar_concat]

/-- Claim C10: `add_heading` dispatches only on whether `level` equals 1:
for every level other than 1 the appended paragraph receives the level-2
style (justified, bold, case unchanged, 14 pt, space-before 12 pt,
space-after 6 pt, line spacing 1.5, first-line indent 1.25 cm), i.e. the
result coincides with a level-2 call. -/
theorem add_heading_dispatches_on_level_one (d : Doc) (text : String)
    (level : Int) (h : level ≠ 1) :
    add_heading d text level = add_heading d text 2
    ∧ lastPar (add_heading d text level) =
        some { alignment := some Alignment.justify
               runs := [{ nodes := [XmlNode.text text]
                          bold := some true
                          fontName := some "Times New Roman"
                          fontSize := some (Pt 14)
                          eastAsia := some "Times New Roman" }]
               paragraph_format :=
                 { space_before := some (Pt 12)
                   space_after := some (Pt 6)
                   line_spacing := some (1.5 : Rat)
                   first_line_indent := some (Cm 1.25) } } := by
  constructor
  · simp [add_heading, h]
  · simp [add_heading, h, set_paragraph_format, tnrRun, blankParagraph, lastPar_concat,
          quarter_cm_ne_zero]

/-- Witness for claim C10 at level 0 (a value other than 1, and not 2). -/
theorem add_heading_dispatches_on_level_one_witness :
    ((0 : Int) ≠ 1)
    ∧ (add_heading newDocument "Обзор" 0 = add_heading newDocument "Обзор" 2
       ∧ lastPar (add_heading newDocument "Обзор" 0) =
           some { alignment := some Alignment.justify
                  runs := [{ nodes := [XmlNode.text "Обзор"]
                             bold := some true
                             fontName := some "Times New Roman"
                             fontSize := some (Pt 14)
                             eastAsia := some "Times New Roman" }]
                  paragraph_format :=
                    { space_before := some (Pt 12)
                      space_after := some (Pt 6)
                      line_spacing := some (1.5 : Rat)
                      first_line_indent := some (Cm 1.25) } }) :=
  ⟨by decide, add_heading_dispatches_on_level_one newDocument "Обзор" 0 (by decide)⟩

/-- Counterexample for claim C4: the ordinal `0` is "supplied", yet the
run is rendered with the dash prefix "– " and not with the prefix "0) ",
because the script dispatches with Python truthiness (`if number:`), which
is false for `0`. -/
theorem add_list_item_zero_ordinal_counterexample :
    (lastPar (add_list_item newDocument "пункт" (some 0))).map
        (fun p => p.runs.map runText) = some ["– пункт"]
    ∧ "– пункт" ≠ "0) пункт" := by
  constructor
  · decide
  · decide

/-- Claim C4 (amended): for every text and every supplied nonzero ordinal
`n`, `add_list_item` renders the run text prefixed with `"{n}) "`; with no
ordinal — or with the ordinal `0`, which Python truthiness treats like
`None` — it renders the prefix "– "; in all cases the paragraph is
justified, 14 pt (the `tnrRun` font pattern), line spacing 1.5, with
1.25 cm first-line indent. -/
theorem add_list_item_prefixes (d : Doc) (text : String) :
    (∀ n : Int, n ≠ 0 →
      lastPar (add_list_item d text (some n)) =
        some { alignment := some Alignment.justify
               runs := [tnrRun (toString n ++ ") " ++ text)]
               paragraph_format :=
                 { space_before := some (Pt 0)
                   space_after := some (Pt 0)
                   line_spacing := some (1.5 : Rat)
                   first_line_indent := some (Cm 1.25) } })
    ∧ lastPar (add_list_item d text none) =
        some { alignment := some Alignment.justify
               runs := [tnrRun ("– " ++ text)]
               paragraph_format :=
                 { space_before := some (Pt 0)
                   space_after := some (Pt 0)
                   line_spacing := some (1.5 : Rat)
                   first_line_indent := some (Cm 1.25) } }
    ∧ lastPar (add_list_item d text (some 0)) =
        some { alignment := some Alignment.justify
               runs := [tnrRun ("– " ++ text)]
               paragraph_format :=
                 { space_before := some (Pt 0)
                   space_after := some (Pt 0)
                   line_spacing := some (1.5 : Rat)
                   first_line_indent := some (Cm 1.25) } } := by
  refine ⟨fun n hn => ?_, ?_, ?_⟩
  · simp [add_list_item, set_paragraph_format, blankParagraph, lastPar_concat, hn,
          quarter_cm_ne_zero]
  · simp [add_list_item, set_paragraph_format, blankParagraph, lastPar_concat,
          quarter_cm_ne_zero]
  · simp [add_list_item, set_paragraph_format, blankParagraph, lastPar_concat,
          quarter_cm_ne_zero]

/-- Witness for claim C4 at the ordinal 3 (cf. the specification's example
"a list item with ordinal=3 renders prefix 3) "). -/
theorem add_list_item_prefixes_witness :
    ((3 : Int) ≠ 0)
    ∧ lastPar (add_list_item newDocument "задача" (some 3)) =
        some { alignment := some Alignment.justify
               runs := [tnrRun (toString (3 : Int) ++ ") " ++ "задача")]
               paragraph_format :=
                 { space_before := some (Pt 0)
                   space_after := some (Pt 0)
                   line_spacing := some (1.5 : Rat)
                   first_line_indent := some (Cm 1.25) } } :=
  ⟨by decide, (add_list_item_prefixes newDocument "задача").1 3 (by decide)⟩

/-- Counterexample for claim C5: the first table-of-contents entry (which
`toc_items` really contains) is not justified — `create_toc` never assigns
an alignment to the entry paragraphs, so they keep the `python-docx`
default. -/
theorem toc_entry_not_justified_counterexample :
    (tocEntryPar "ВВЕДЕНИЕ" "3").alignment ≠ some Alignment.justify
    ∧ ("ВВЕДЕНИЕ", "3") ∈ toc_items := by
  constructor
  · decide
  · decide

/-- Claim C5 (amended): every table-of-contents entry is rendered with no
first-line indent and with a tab between the title text and the literal
page-number string (the page-number run's text is a tab followed by the
page string), but its alignment is left unassigned (the default), not
justified; the bibliography entries of `create_references`, by contrast,
are justified with no first-line indent. -/
theorem toc_entry_layout (item page : String) :
    (tocEntryPar item page).alignment = none
    ∧ (tocEntryPar item page).paragraph_format.first_line_indent = some (Cm 0)
    ∧ (tocEntryPar item page).runs.map runText =
        [(if startsNum item then "\t" ++ item else item), "\t" ++ page]
    ∧ (∀ (i : Nat) (ref : String),
        (referencePar i ref).alignment = some Alignment.justify
        ∧ (referencePar i ref).paragraph_format.first_line_indent = some (Cm 0)) := by
  refine ⟨?_, ?_, ?_, ?_⟩
  · simp [tocEntryPar, set_paragraph_format, blankParagraph]
  · simp [tocEntryPar, set_paragraph_format, blankParagraph]
  · simp [tocEntryPar, set_paragraph_format, blankParagraph, tnrRun, runText,
          nodesText, string_append_empty]
  · intro i ref
    constructor
    · simp [referencePar, set_paragraph_format, blankParagraph]
    · simp [referencePar, set_paragraph_format, blankParagraph]

/-- Claim C8: style resolution is pure and deterministic — for every block
kind and flag combination, the paragraph appended by the composer is a
function of the block spec alone, independent of the document it is
appended to (hence two invocations with identical arguments yield identical
styled paragraphs, and in particular identical style records: same font,
size, boldness, alignment, line spacing, spacing before/after and
first-line indent). -/
theorem style_resolution_deterministic (dA dB : Doc) (k : BlockSpec) :
    lastPar (appendBlock dA k) = lastPar (appendBlock dB k) := by
  cases k with
  | heading t l =>
    by_cases h : l = 1 <;> simp [appendBlock, add_heading, h, lastPar_concat]
  | paragraph t b i => simp [appendBlock, add_paragraph, lastPar_concat]
  | listItem t n => simp [appendBlock, add_list_item, lastPar_concat]

/-- Claim C7: for a header row of width `w` and any sequence of data rows
each of width `w`, the appended table has exactly `1 + len(dataRows)` rows
and `w` columns, every header-row cell's run is bold, and no data-row
cell's run is bold (data-cell runs carry no boldness assignment at all,
which renders as not bold). -/
theorem appendTable_shape (headers : List String) (data : List (List String))
    (hd : ∀ rd ∈ data, rd.length = headers.length) :
    buildTable headers data = Except.ok
      { style := none
        rows := headers.map headerMk :: data.map fun rd => rd.map dataMk }
    ∧ (headers.map headerMk :: data.map fun rd => rd.map dataMk).length = 1 + data.length
    ∧ (∀ row ∈ headers.map headerMk :: data.map fun rd => rd.map dataMk,
        row.length = headers.length)
    ∧ (∀ c ∈ headers.map headerMk, ∀ r ∈ cellRuns c, r.bold = some true)
    ∧ (∀ row ∈ data.map fun rd => rd.map dataMk, ∀ c ∈ row, ∀ r ∈ cellRuns c,
        r.bold = none) := by
  refine ⟨?_, ?_, ?_, ?_, ?_⟩
  · have heq := buildTable_eval headers data (fun rd h => le_of_eq (hd rd h))
    have hmap : data.map
        (fun rd => rd.map dataMk ++ List.replicate (headers.length - rd.length) newCell) =
        data.map fun rd => rd.map dataMk := by
      apply List.map_congr_left
      intro rd hrd
      rw [hd rd hrd]
      simp
    rw [hmap] at heq
    exact heq
  · simp [Nat.add_comm]
  · intro row hrow
    rcases List.mem_cons.mp hrow with h | h
    · subst h; simp
    · obtain ⟨rd, hrd, rfl⟩ := List.mem_map.mp h
      simp [hd rd hrd]
  · intro c hc r hr
    obtain ⟨v, hv, rfl⟩ := List.mem_map.mp hc
    simp [cellRuns, headerMk, boldCellRuns, setCellText, cellRun, blankParagraph] at hr
    rw [hr]
  · intro row hrow c hc r hr
    obtain ⟨rd, hrd, rfl⟩ := List.mem_map.mp hrow
    obtain ⟨v, hv, rfl⟩ := List.mem_map.mp hc
    simp [cellRuns, dataMk, setCellText, cellRun, blankParagraph] at hr
    rw [hr]

/-- Witness for claim C7 at the script's own benchmark table data
(header width 4, three data rows of width 4). -/
theorem appendTable_shape_witness :
    (∀ rd ∈ section4Data, rd.length = section4Headers.length)
    ∧ (buildTable section4Headers section4Data = Except.ok
        { style := none
          rows := section4Headers.map headerMk ::
            section4Data.map fun rd => rd.map dataMk }
      ∧ (section4Headers.map headerMk ::
          section4Data.map fun rd => rd.map dataMk).length = 1 + section4Data.length
      ∧ (∀ row ∈ section4Headers.map headerMk ::
            section4Data.map fun rd => rd.map dataMk,
          row.length = section4Headers.length)
      ∧ (∀ c ∈ section4Headers.map headerMk, ∀ r ∈ cellRuns c, r.bold = some true)
      ∧ (∀ row ∈ section4Data.map fun rd => rd.map dataMk, ∀ c ∈ row,
          ∀ r ∈ cellRuns c, r.bold = none)) :=
  ⟨by decide, appendTable_shape section4Headers section4Data (by decide)⟩

/-- Counterexample for claim C6: a table fill with a header row of width 4
and one data row of width 3 raises nothing — no `MalformedTableShape`
exists anywhere in the script — and instead completes with the data row
silently padded by the untouched fresh fourth cell. -/
theorem malformed_table_silently_pads_counterexample :
    buildTable ["A", "B", "C", "D"] [["1", "2", "3"]] = Except.ok
      { style := none
        rows := [["A", "B", "C", "D"].map headerMk,
                 ["1", "2", "3"].map dataMk ++ [newCell]] } := by
  rfl

/-- Claim C6 (amended): appending a table whose header row has width `w`
and whose data row is shorter does not raise any error; the fill loop
writes only the cells the data row covers, leaving the remaining cells of
that row as untouched fresh cells — a silently padded table. -/
theorem appendTable_pads_short_row (headers : List String) (rd : List String)
    (h : rd.length ≤ headers.length) :
    buildTable headers [rd] = Except.ok
      { style := none
        rows := [headers.map headerMk,
                 rd.map dataMk ++
                   List.replicate (headers.length - rd.length) newCell] } := by
  have heq := buildTable_eval headers [rd] (by
    intro r hr
    rw [List.mem_singleton] at hr
    rw [hr]
    exact h)
  simpa using heq

/-- Witness for claim C6's amended statement at a width-4 header with a
width-2 data row. -/
theorem appendTable_pads_short_row_witness :
    (["x", "y"] : List String).length ≤ (["a", "b", "c", "d"] : List String).length
    ∧ buildTable ["a", "b", "c", "d"] [["x", "y"]] = Except.ok
        { style := none
          rows := [["a", "b", "c", "d"].map headerMk,
                   ["x", "y"].map dataMk ++
                     List.replicate ((["a", "b", "c", "d"] : List String).length -
                       (["x", "y"] : List String).length) newCell] } :=
  ⟨by decide, appendTable_pads_short_row ["a", "b", "c", "d"] ["x", "y"] (by decide)⟩

set_option maxRecDepth 10000 in
/-- Claim C1 (the code as it stands): the document produced by the main
composition sequence contains no field nodes at all — `add_page_number`
is defined in the script but never invoked by `main`, so no run in the
serialized package carries the FieldBegin / FieldInstruction("PAGE") /
FieldEnd triplet (and no footer or header run is ever created or
touched). -/
theorem main_document_contains_no_field_nodes :
    main.map docContainsFieldNode = Except.ok false := by rfl

set_option maxRecDepth 10000 in
/-- Counterexample for claim C9: not every text run of the document built
by `main` carries the East-Asian fallback — the table-of-contents
page-number runs and all table-cell runs lack it. -/
theorem east_asia_not_universal_counterexample :
    main.map allRunsEastAsiaTNR = Except.ok false := by rfl

/-- Claim C9 (amended): every run appended by the styled block operations
`add_heading` (any level), `add_paragraph` and `add_list_item` carries an
East-Asian font fallback "Times New Roman" identical to its Latin font;
but the table-of-contents page-number run of every TOC entry and the runs
of every table cell carry no East-Asian fallback at all. -/
theorem east_asia_font_coverage :
    (∀ (d : Doc) (text : String) (level : Int),
      (lastPar (add_heading d text level)).map (fun p => p.runs.map Run.eastAsia) =
        some [some "Times New Roman"])
    ∧ (∀ (d : Doc) (text : String) (bold indent : Bool),
      (lastPar (add_paragraph d text bold indent)).map (fun p => p.runs.map Run.eastAsia) =
        some [some "Times New Roman"])
    ∧ (∀ (d : Doc) (text : String) (number : Option Int),
      (lastPar (add_list_item d text number)).map (fun p => p.runs.map Run.eastAsia) =
        some [some "Times New Roman"])
    ∧ (∀ item page : String,
      (tocEntryPar item page).runs.map Run.eastAsia = [some "Times New Roman", none])
    ∧ (∀ v : String, (cellRuns (headerMk v)).map Run.eastAsia = [none]
        ∧ (cellRuns (dataMk v)).map Run.eastAsia = [none]) := by
  refine ⟨?_, ?_, ?_, ?_, ?_⟩
  · intro d text level
    by_cases h : level = 1 <;>
      simp [add_heading, h, set_paragraph_format, tnrRun, blankParagraph, lastPar_concat]
  · intro d text bold indent
    simp [add_paragraph, set_paragraph_format, tnrRun, blankParagraph, lastPar_concat]
  · intro d text number
    simp [add_list_item, set_paragraph_format, tnrRun, blankParagraph, lastPar_concat]
  · intro item page
    simp [tocEntryPar, set_paragraph_format, tnrRun, blankParagraph]
  · intro v
    constructor
    · simp [cellRuns, headerMk, boldCellRuns, setCellText, cellRun, blankParagraph]
    · simp [cellRuns, dataMk, setCellText, cellRun, blankParagraph]

end GuideHelper
